import Mathlib

/-!
  # Call-signaling and peer-session negotiation: a shallow embedding

  This development embeds the call subsystem of the Chitchat application:
  the `CallModal` component (WebRTC signaling over a Firebase realtime
  store) and the call handlers of the `App` component. Pure fragments of
  the TypeScript become Lean functions; the stateful callback handlers
  become explicit state-transition functions; the store (Firebase paths
  under `calls/{callId}` and `users/{uid}/incomingCall`) becomes a record
  of the per-call keys. Event-driven parts (watch notifications,
  connection-state callbacks) are folds of an event list over the
  component state.
-/

namespace ChitchatCall

/-! ## Data model (types.ts) -/

/-- Discriminator of a session description, `'offer' | 'answer'` in
`CallSignal` of types.ts. -/
inductive SignalKind
  | offer
  | answer
deriving DecidableEq, Repr

/-- A session description: `CallSignal { type, sdp }` from types.ts. The
SDP payload is opaque here. -/
structure CallSignal where
  type : SignalKind
  sdp : String
deriving DecidableEq, Repr

/-- The call invitation delivered through `users/{uid}/incomingCall`:
`IncomingCallData` from types.ts. -/
structure IncomingCallData where
  callerId : String
  callerName : String
  callId : String
  isVideo : Bool
  offer : CallSignal
deriving DecidableEq, Repr

/-! ## C1 — the remote-candidate relay (CallModal, remote candidates
`onValue` handler)

The handler subscribed on `calls/{callId}/candidates/{partnerId}`
receives, on every change, a snapshot holding the full current list of
the partner's pushed candidates, and does
`snapshot.forEach(child => pc.addIceCandidate(child.val()))` — it applies
every entry of every snapshot, keeping no record of entries applied
before. Candidates are modelled as opaque `Nat` identities; the applied
multiset is the list of all `addIceCandidate` calls issued, in order. -/

/-- One notification: the handler walks the whole snapshot and issues one
`addIceCandidate` per entry, appending to the history of applied
candidates. -/
def applyCandidateSnapshot (applied : List Nat) (snapshot : List Nat) : List Nat :=
  applied ++ snapshot

/-- The full list of `addIceCandidate` calls issued across a sequence of
watch notifications, each carrying a full-current-set snapshot. -/
def applyCandidateNotifications (notifs : List (List Nat)) : List Nat :=
  notifs.foldl applyCandidateSnapshot []

/-- Full-current-set watch semantics over an append-only candidate list:
every notification's snapshot extends the previous notification's
snapshot. -/
def fullSetSequence : List (List Nat) → Bool
  | [] => true
  | [_] => true
  | a :: b :: rest => a.isPrefixOf b && fullSetSequence (b :: rest)

/-! ## C2 — the remote-description guard (CallModal, answer `onValue`
handler)

The initiator's watch on `calls/{callId}/answer` runs
`if (data && !peerConnection.current?.currentRemoteDescription)
   peerConnection.current?.setRemoteDescription(new RTCSessionDescription(data))`.
The peer session is modelled by the two description slots WebRTC
exposes. -/

/-- The peer session object, reduced to its description slots. -/
structure RTCPeerConnection where
  currentRemoteDescription : Option CallSignal
  localDescription : Option CallSignal
deriving DecidableEq, Repr

/-- A freshly constructed peer session: no description set yet. -/
def initialPeerConnection : RTCPeerConnection :=
  { currentRemoteDescription := none, localDescription := none }

/-- The call `pc.setRemoteDescription(d)`: stores `d` as the current
remote description. -/
def setRemoteDescription (pc : RTCPeerConnection) (d : CallSignal) : RTCPeerConnection :=
  { pc with currentRemoteDescription := some d }

/-- The answer-watch callback: apply the delivered snapshot value only
when it is non-null and no remote description has been applied yet
(`data && !currentRemoteDescription`). The callback has no failure path:
it either mutates the session or falls through. -/
def answerWatchHandler (pc : RTCPeerConnection) (snapshotVal : Option CallSignal) :
    RTCPeerConnection :=
  match snapshotVal with
  | none => pc
  | some data =>
    if pc.currentRemoteDescription.isSome then pc
    else setRemoteDescription pc data

/-! ## C3 / C4 — cleanup and `endCall` (CallModal `useEffect` return,
App `endCall`)

The store-side artifacts of one call are the keys under
`calls/{callId}` (`status`, `answer`, `candidates/{ownerId}`) plus the
invitation slot `users/{responderUid}/incomingCall`. The effect cleanup
stops local tracks, closes the peer session, writes
`update(calls/{callId}, { status: 'ended' })`, removes the invitation
slot for the role that owns it, and calls `off` (detach, not delete) on
the status, answer and candidate watches. -/

/-- The per-call portion of the realtime store. `none` / `[]` means the
key is absent. Candidate entries are opaque `Nat` identities, one list
per owner. -/
structure CallStore where
  status : Option String
  answer : Option CallSignal
  initiatorCandidates : List Nat
  responderCandidates : List Nat
  invitation : Option IncomingCallData
deriving DecidableEq, Repr

/-- Which watch subscriptions this client still holds (`onValue`
registrations not yet `off`). -/
structure WatchSubs where
  statusWatch : Bool
  answerWatch : Bool
  remoteCandidatesWatch : Bool
deriving DecidableEq, Repr

/-- Local resources owned by the modal: the capture tracks and the peer
session object. -/
structure LocalResources where
  tracksLive : Bool
  pcOpen : Bool
deriving DecidableEq, Repr

/-- Everything the cleanup acts on: the shared store keys for this call,
this client's subscriptions, and its local resources. -/
structure CallArtifacts where
  store : CallStore
  subs : WatchSubs
  res : LocalResources
deriving DecidableEq, Repr

/-- The `useEffect` cleanup of CallModal, for a client in the given role
(the initiator holds a partner, the responder holds the invitation, as
CallModal is instantiated from App): stop tracks, close the peer session,
write `status := 'ended'`, detach the status watch, remove the
invitation slot (the initiator removes the partner's, the responder its
own — both name the same call's entry) and, for the initiator, detach
the answer watch, then detach the candidates watch. The `answer` and
`candidates` keys themselves are only ever `off`'d, never `remove`d. -/
def modalCleanup (isInitiator : Bool) (a : CallArtifacts) : CallArtifacts :=
  let res : LocalResources := { tracksLive := false, pcOpen := false }
  let store1 : CallStore := { a.store with status := some "ended" }
  let subs1 : WatchSubs := { a.subs with statusWatch := false }
  let store2 : CallStore := { store1 with invitation := none }
  let subs2 : WatchSubs :=
    if isInitiator then { subs1 with answerWatch := false } else subs1
  let subs3 : WatchSubs := { subs2 with remoteCandidatesWatch := false }
  { store := store2, subs := subs3, res := res }

/-- The App-level call state that `endCall` touches, together with the
artifacts the unmounted modal cleans up. `isInCall` doubles as «the
CallModal is mounted», exactly as in App's render. -/
structure AppCallState where
  isInCall : Bool
  incomingCall : Option IncomingCallData
  artifacts : CallArtifacts
deriving DecidableEq, Repr

/-- The handler `App.endCall` (`setIsInCall(false); setIncomingCall(null)`) together
with its React consequence: if the modal was mounted it unmounts and its
effect cleanup runs once; if it was already unmounted nothing further
happens. -/
def endCall (isInitiator : Bool) (s : AppCallState) : AppCallState :=
  let artifacts :=
    if s.isInCall then modalCleanup isInitiator s.artifacts else s.artifacts
  { isInCall := false, incomingCall := none, artifacts := artifacts }

/-! ## C5 / C7 — connection status (CallModal state + callbacks)

`connectionStatus` starts as `'Connecting...'`; the only writers are the
`onconnectionstatechange` callback (`'Connected'` on `connected`,
`'Disconnected'` on `disconnected`/`failed`) and the media-failure catch
(`'Failed to access media devices'`). Snapshot deliveries of the answer
or of candidates never touch it. Events delivered to the mounted modal
are folded over its state. -/

/-- The `RTCPeerConnection.connectionState` values. -/
inductive ConnState
  | new
  | connecting
  | connected
  | disconnected
  | failed
  | closed
deriving DecidableEq, Repr

/-- An asynchronous event delivered to the mounted CallModal: a
connection-state callback, an answer-watch snapshot, or a
candidates-watch snapshot. -/
inductive CallEvent
  | connectionStateChanged (st : ConnState)
  | answerSnapshot (v : Option CallSignal)
  | candidatesSnapshot (snap : List Nat)
deriving DecidableEq, Repr

/-- The modal state these events act on: the displayed status and the
peer session's description slots. -/
structure ModalState where
  connectionStatus : String
  pc : RTCPeerConnection
deriving DecidableEq, Repr

/-- One event step: `onconnectionstatechange` updates the status,
the answer snapshot runs the guarded `answerWatchHandler`, a candidates
snapshot feeds `addIceCandidate` and leaves both fields alone. -/
def modalStep (s : ModalState) (e : CallEvent) : ModalState :=
  match e with
  | .connectionStateChanged st =>
    if st = .connected then { s with connectionStatus := "Connected" }
    else if st = .disconnected ∨ st = .failed then
      { s with connectionStatus := "Disconnected" }
    else s
  | .answerSnapshot v => { s with pc := answerWatchHandler s.pc v }
  | .candidatesSnapshot _ => s

/-- Folding a list of delivered events over a modal state. -/
def modalRun (s : ModalState) (events : List CallEvent) : ModalState :=
  events.foldl modalStep s

/-- The immediate outcome of `startCall` as a function of whether
`getUserMedia` succeeds. On success the stream and the peer session
exist and the status stays at its initial `'Connecting...'` (later
events may change it); on failure the catch runs: no stream, no peer
session, status `'Failed to access media devices'`, and `end` scheduled
via `setTimeout(onEndCall, 3000)`. -/
structure StartOutcome where
  connectionStatus : String
  streamAcquired : Bool
  pcCreated : Bool
  endCallDelayMs : Option Nat
deriving DecidableEq, Repr

/-- The `try`/`catch` of `startCall`, lines 221–331 of CallModal. -/
def startCallOutcome (mediaOk : Bool) : StartOutcome :=
  if mediaOk then
    { connectionStatus := "Connecting..."
      streamAcquired := true
      pcCreated := true
      endCallDelayMs := none }
  else
    { connectionStatus := "Failed to access media devices"
      streamAcquired := false
      pcCreated := false
      endCallDelayMs := some 3000 }

/-! ## C6 — the responder branch of `startCall`

The responder branch is straight-line `await`ed code:
`await pc.setRemoteDescription(offer)`, then
`const answer = await pc.createAnswer()`, then
`await pc.setLocalDescription(answer)`, then
`await set(calls/{callId}/answer, answer)`. Sequential `await`
semantics: each asynchronous action completes before the next starts,
giving a trace of start/complete events in program order. -/

/-- The asynchronous signaling actions `startCall` performs. -/
inductive SigAction
  | getUserMedia
  | createPeerConnection
  | setRemoteDesc (d : CallSignal)
  | createAnswerOp
  | setLocalDesc (d : CallSignal)
  | writeAnswer (d : CallSignal)
deriving DecidableEq, Repr

/-- A point in the life of an asynchronous action: its start or its
completion. -/
inductive AsyncEv
  | start (a : SigAction)
  | complete (a : SigAction)
deriving DecidableEq, Repr

/-- Sequential `await` semantics: each action in the list starts and
completes before the next one starts. -/
def seqEvents : List SigAction → List AsyncEv
  | [] => []
  | a :: rest => .start a :: .complete a :: seqEvents rest

/-- The responder branch of `startCall` (CallModal lines 298–312),
preceded by the shared media/peer-session setup, as the list of
asynchronous actions in program order. `offer` is the invitation's
offer, `answer` the description `createAnswer` produced. -/
def responderActions (offer answer : CallSignal) : List SigAction :=
  [ .getUserMedia
  , .createPeerConnection
  , .setRemoteDesc offer
  , .createAnswerOp
  , .setLocalDesc answer
  , .writeAnswer answer ]

/-- The start/complete trace of the responder branch. -/
def responderEvents (offer answer : CallSignal) : List AsyncEv :=
  seqEvents (responderActions offer answer)

/-! ## C8 / C9 / C10 — `switchCamera` (CallModal lines 378–414)

`switchCamera` enumerates devices, filters `videoinput`, reads the
current video track's `deviceId`, picks
`videoInputs[(findIndex + 1) % videoInputs.length]`, acquires a new
stream from that device, `replaceTrack`s it on the video sender,
swaps it into the local stream (`removeTrack`/`addTrack`) and points the
preview at the stream. Everything runs inside a `try` whose `catch` only
logs. -/

/-- A `MediaDeviceInfo` as enumerated by
`navigator.mediaDevices.enumerateDevices()`. -/
structure MediaDeviceInfo where
  deviceId : String
  kind : String
deriving DecidableEq, Repr

/-- A media track: an identity, the device it captures and its kind. -/
structure MediaTrack where
  trackId : Nat
  deviceId : String
  kind : String
deriving DecidableEq, Repr

/-- The filter `devices.filter(d => d.kind === 'videoinput')`. -/
def videoInputs (devices : List MediaDeviceInfo) : List MediaDeviceInfo :=
  devices.filter (fun d => d.kind = "videoinput")

/-- Device selection: `findIndex` over the filtered inputs gives the
current index (−1 when the current id matches nothing, including an
undefined id), and the chosen device is the one at
`(currentIndex + 1) % videoInputs.length` — JavaScript `%` on these
non-negative operands agrees with `Int.emod`, and an out-of-range or
`NaN` subscript yields `undefined`, i.e. `none`. -/
def nextVideoDevice (inputs : List MediaDeviceInfo) (currentDeviceId : Option String) :
    Option MediaDeviceInfo :=
  let currentIndex : Int :=
    match inputs.findIdx? (fun d => currentDeviceId = some d.deviceId) with
    | some i => (i : Int)
    | none => -1
  inputs.get? ((currentIndex + 1) % (inputs.length : Int)).toNat

/-- The environment a `switchCamera` call observes: the device list
`enumerateDevices` returns, whether `getUserMedia` on the chosen device
succeeds, and the identity of the track it would hand back. -/
structure SwitchEnv where
  devices : List MediaDeviceInfo
  acquireOk : Bool
  freshTrackId : Nat
deriving DecidableEq, Repr

/-- The state `switchCamera` reads and writes: the local stream's
tracks, the mount-time `hasMultipleCameras` flag, the video sender's
current track, the preview's tracks, and which tracks have been
`stop()`ped. -/
structure SwitchState where
  localStream : Option (List MediaTrack)
  hasMultipleCameras : Bool
  videoSenderTrack : Option MediaTrack
  previewTracks : Option (List MediaTrack)
  stoppedTracks : List Nat
deriving DecidableEq, Repr

/-- The operations `switchCamera` can issue, recorded for inspection.
`renegotiate` stands for a `createOffer`/`setLocalDescription`
renegotiation round — `switchCamera` never emits it. -/
inductive SwitchOp
  | enumerateDevices
  | acquire (deviceId : String)
  | replaceTrack (oldId newId : Nat)
  | removeTrack (id : Nat)
  | addTrack (id : Nat)
  | setPreview
  | stopTrack (id : Nat)
  | renegotiate
deriving DecidableEq, Repr

/-- The switch: guard on a live stream and `hasMultipleCameras`;
enumerate and filter devices; read the first video track's id; pick the
next device; acquire; `replaceTrack` on the video sender if one exists;
swap the stream's track; point the preview at the stream. A failed
acquisition throws inside the `try`, so the state is left untouched and
the error only logged. The returned list records the operations issued.
No `stop()` call appears anywhere on this path. -/
def switchCamera (env : SwitchEnv) (st : SwitchState) : SwitchState × List SwitchOp :=
  match st.localStream with
  | none => (st, [])
  | some tracks =>
    if !st.hasMultipleCameras then (st, [])
    else
      let inputs := videoInputs env.devices
      let currentTrack? := (tracks.filter (fun t => t.kind = "video")).head?
      let currentDeviceId := currentTrack?.map (·.deviceId)
      match nextVideoDevice inputs currentDeviceId with
      | none => (st, [.enumerateDevices])
      | some nd =>
        if !env.acquireOk then (st, [.enumerateDevices, .acquire nd.deviceId])
        else
          let newTrack : MediaTrack :=
            { trackId := env.freshTrackId, deviceId := nd.deviceId, kind := "video" }
          let (senderTrack, senderOps) :=
            match st.videoSenderTrack with
            | some old =>
              (some newTrack, [SwitchOp.replaceTrack old.trackId newTrack.trackId])
            | none => (st.videoSenderTrack, [])
          match currentTrack? with
          | none =>
            -- `removeTrack(undefined)` throws after `replaceTrack` already ran;
            -- the catch logs and the stream and preview stay as they were.
            ({ st with videoSenderTrack := senderTrack },
             [.enumerateDevices, .acquire nd.deviceId] ++ senderOps)
          | some currentTrack =>
            let tracks2 := tracks.erase currentTrack ++ [newTrack]
            ({ localStream := some tracks2
               hasMultipleCameras := st.hasMultipleCameras
               videoSenderTrack := senderTrack
               previewTracks := some tracks2
               stoppedTracks := st.stoppedTracks },
             [.enumerateDevices, .acquire nd.deviceId] ++ senderOps ++
               [.removeTrack currentTrack.trackId, .addTrack newTrack.trackId, .setPreview])

/-! ## Concrete instances, used by witnesses and counterexamples -/

/-- A concrete answer description. -/
def exampleAnswer : CallSignal := { type := .answer, sdp := "v=0 answer" }

/-- A concrete offer description. -/
def exampleOffer : CallSignal := { type := .offer, sdp := "v=0 offer" }

/-- A mid-call artifact state: the responder has written its answer, both
sides have pushed one candidate, every watch is live. -/
def exampleArtifacts : CallArtifacts :=
  { store :=
      { status := some "active"
        answer := some exampleAnswer
        initiatorCandidates := [0]
        responderCandidates := [1]
        invitation := none }
    subs := { statusWatch := true, answerWatch := true, remoteCandidatesWatch := true }
    res := { tracksLive := true, pcOpen := true } }

/-- An App state with the modal mounted over `exampleArtifacts`. -/
def exampleAppState : AppCallState :=
  { isInCall := true, incomingCall := none, artifacts := exampleArtifacts }

/-- The modal state right after mounting. -/
def initialModalState : ModalState :=
  { connectionStatus := "Connecting...", pc := initialPeerConnection }

/-- A completed description exchange followed by a candidate snapshot —
no connection-state callback anywhere. -/
def exampleExchangeEvents : List CallEvent :=
  [ .answerSnapshot (some exampleAnswer)
  , .candidatesSnapshot [0, 1] ]

/-- Two cameras and one microphone, as `enumerateDevices` lists them. -/
def exampleDevices : List MediaDeviceInfo :=
  [ { deviceId := "cam0", kind := "videoinput" }
  , { deviceId := "cam1", kind := "videoinput" }
  , { deviceId := "mic0", kind := "audioinput" } ]

/-- The video track currently captured from `cam0`. -/
def exampleOldTrack : MediaTrack := { trackId := 0, deviceId := "cam0", kind := "video" }

/-- The local stream's tracks: the `cam0` video track plus an audio track. -/
def exampleTracks : List MediaTrack :=
  [ exampleOldTrack, { trackId := 1, deviceId := "micdev", kind := "audio" } ]

/-- A switch environment where acquisition succeeds. -/
def exampleSwitchEnv : SwitchEnv :=
  { devices := exampleDevices, acquireOk := true, freshTrackId := 7 }

/-- The modal's media state during an established two-camera video call. -/
def exampleSwitchState : SwitchState :=
  { localStream := some exampleTracks
    hasMultipleCameras := true
    videoSenderTrack := some exampleOldTrack
    previewTracks := some exampleTracks
    stoppedTracks := [] }

/-- A machine with a single camera: `hasMultipleCameras` computed at
mount is `false`. -/
def exampleOneCamEnv : SwitchEnv :=
  { devices := [ { deviceId := "cam0", kind := "videoinput" } ]
    acquireOk := true
    freshTrackId := 9 }

/-- The switch state on the single-camera machine. -/
def exampleOneCamState : SwitchState :=
  { localStream := some exampleTracks
    hasMultipleCameras := false
    videoSenderTrack := some exampleOldTrack
    previewTracks := some exampleTracks
    stoppedTracks := [] }

/-! ## Theorems -/

/-- Helper: the number of `addIceCandidate` calls a fold of snapshot
notifications issues for one candidate, with an arbitrary starting
history. -/
theorem applyCandidate_foldl_count (notifs : List (List Nat)) (acc : List Nat) (c : Nat) :
    (notifs.foldl applyCandidateSnapshot acc).count c
      = acc.count c + (notifs.map (fun snap => snap.count c)).sum := by
  induction notifs generalizing acc with
  | nil => simp
  | cons s rest ih =>
    rw [List.foldl_cons, ih]
    simp [applyCandidateSnapshot, List.count_append]
    omega

/-- C1 counterexample: the claim says each distinct candidate is applied
exactly once across any full-current-set notification sequence. Deliver
the snapshot `[0]`, then — after the partner pushes a second candidate —
the full set `[0, 1]`: candidate `0` is applied twice. -/
theorem candidates_not_applied_exactly_once :
    ¬ ∀ notifs : List (List Nat), fullSetSequence notifs = true →
        ∀ c ∈ applyCandidateNotifications notifs,
          (applyCandidateNotifications notifs).count c = 1 := by
  intro h
  exact absurd (h [[0], [0, 1]] (by decide) 0 (by decide)) (by decide)

/-- C1 (amended): the relay keeps no record of applied entries, so every
candidate is applied once per notification whose snapshot contains it —
the total number of `addIceCandidate` calls for a candidate is the sum,
over the notifications, of its occurrences in each snapshot. -/
theorem candidate_application_count (notifs : List (List Nat)) (c : Nat) :
    (applyCandidateNotifications notifs).count c
      = (notifs.map (fun snap => snap.count c)).sum := by
  rw [applyCandidateNotifications, applyCandidate_foldl_count]
  simp

/-- C2: applying a received remote description a second time — same or
different payload, or a null snapshot — leaves the peer session exactly
as after the first application; the guard
`data && !currentRemoteDescription` makes the second delivery fall
through, and the handler has no failure path, so no error reaches the
caller. -/
theorem applyRemoteDescription_second_application_noop
    (pc : RTCPeerConnection) (d1 : CallSignal) (later : Option CallSignal) :
    answerWatchHandler (answerWatchHandler pc (some d1)) later
      = answerWatchHandler pc (some d1) := by
  cases later with
  | none => rfl
  | some d2 =>
    cases h : pc.currentRemoteDescription with
    | none => simp [answerWatchHandler, setRemoteDescription, h]
    | some r => simp [answerWatchHandler, h]

/-- C3 counterexample: the claim says call end deletes the invitation,
the answer, and the candidate entries. Run the cleanup on a mid-call
store: the answer entry and both candidate lists survive — only their
watches are detached. -/
theorem cleanup_leaves_answer_and_candidates :
    ¬ ∀ (isInitiator : Bool) (a : CallArtifacts),
        (modalCleanup isInitiator a).store.invitation = none ∧
        (modalCleanup isInitiator a).store.answer = none ∧
        (modalCleanup isInitiator a).store.initiatorCandidates = [] ∧
        (modalCleanup isInitiator a).store.responderCandidates = [] := by
  intro h
  exact absurd (h true exampleArtifacts).2.1 (by decide)

/-- C3 (amended): when a call ends, the cleanup deletes the
CallInvitation entry and writes `status = "ended"`, but the
SessionDescription (answer) entry and the accumulated IceCandidate
entries are left in the store untouched — the cleanup only detaches
their watches — while all local resources are released. -/
theorem cleanup_deletes_invitation_only (isInitiator : Bool) (a : CallArtifacts) :
    (modalCleanup isInitiator a).store.invitation = none ∧
    (modalCleanup isInitiator a).store.status = some "ended" ∧
    (modalCleanup isInitiator a).store.answer = a.store.answer ∧
    (modalCleanup isInitiator a).store.initiatorCandidates = a.store.initiatorCandidates ∧
    (modalCleanup isInitiator a).store.responderCandidates = a.store.responderCandidates ∧
    (modalCleanup isInitiator a).subs.statusWatch = false ∧
    (modalCleanup isInitiator a).subs.remoteCandidatesWatch = false ∧
    (isInitiator = true → (modalCleanup isInitiator a).subs.answerWatch = false) ∧
    (modalCleanup isInitiator a).res = ⟨false, false⟩ := by
  cases isInitiator <;> simp [modalCleanup]

/-- Helper: a second `endCall` is absorbed — the first one left
`isInCall` false, so the guard skips the cleanup and the flag writes
reproduce the same state. -/
theorem endCall_endCall (isInitiator : Bool) (s : AppCallState) :
    endCall isInitiator (endCall isInitiator s) = endCall isInitiator s := by
  simp [endCall]

/-- C4: `endCall` is idempotent — calling it `n ≥ 1` times yields the
same terminal state (flags cleared, cleanup side effects executed once)
as calling it once, in any starting state, including states where the
remote side already ended the call. -/
theorem endCall_idempotent (isInitiator : Bool) (s : AppCallState) (n : Nat)
    (h : 1 ≤ n) :
    (endCall isInitiator)^[n] s = endCall isInitiator s := by
  induction n with
  | zero => exact absurd h (by omega)
  | succ m ih =>
    rcases Nat.eq_zero_or_pos m with hm | hm
    · subst hm
      simp
    · rw [Function.iterate_succ_apply', ih hm, endCall_endCall]

/-- C4 witness: three `endCall`s on a live call equal one. -/
theorem endCall_idempotent_witness :
    1 ≤ 3 ∧ (endCall true)^[3] exampleAppState = endCall true exampleAppState :=
  ⟨by decide, endCall_idempotent true exampleAppState 3 (by decide)⟩

/-- Helper: no event other than a `connected` connection-state callback
can ever move `connectionStatus` to `"Connected"` — the fold preserves
«not Connected» across answer snapshots, candidate snapshots, and every
other connection state. Shared by the C5 and C7 theorems. -/
theorem modalRun_ne_connected (events : List CallEvent) (s : ModalState)
    (h0 : s.connectionStatus ≠ "Connected")
    (h : CallEvent.connectionStateChanged ConnState.connected ∉ events) :
    (modalRun s events).connectionStatus ≠ "Connected" := by
  induction events generalizing s with
  | nil => simpa [modalRun] using h0
  | cons e rest ih =>
    have he : e ≠ CallEvent.connectionStateChanged ConnState.connected :=
      fun hc => h (hc ▸ List.mem_cons_self _ _)
    have hrest : CallEvent.connectionStateChanged ConnState.connected ∉ rest :=
      fun hm => h (List.mem_cons_of_mem _ hm)
    have hstep : (modalStep s e).connectionStatus ≠ "Connected" := by
      cases e with
      | connectionStateChanged st =>
        cases st with
        | connected => exact absurd rfl he
        | disconnected => simp [modalStep]
        | failed => simp [modalStep]
        | new => simpa [modalStep] using h0
        | connecting => simpa [modalStep] using h0
        | closed => simpa [modalStep] using h0
      | answerSnapshot v => simpa [modalStep] using h0
      | candidatesSnapshot snap => simpa [modalStep] using h0
    have := ih (modalStep s e) hstep hrest
    simpa [modalRun, List.foldl_cons] using this

/-- C5: starting from the freshly mounted modal, a trace of events that
contains no `connectionStateChanged connected` callback — in particular
any trace made only of answer and candidate snapshots, i.e. a completed
description exchange — never yields the `"Connected"` status. -/
theorem active_only_via_connection_callback (events : List CallEvent)
    (h : CallEvent.connectionStateChanged ConnState.connected ∉ events) :
    (modalRun initialModalState events).connectionStatus ≠ "Connected" :=
  modalRun_ne_connected events initialModalState (by decide) h

/-- C5 witness: a delivered answer plus a candidate snapshot — the full
description exchange — leave the status short of `"Connected"`. -/
theorem active_only_via_connection_callback_witness :
    CallEvent.connectionStateChanged ConnState.connected ∉ exampleExchangeEvents ∧
    (modalRun initialModalState exampleExchangeEvents).connectionStatus ≠ "Connected" :=
  ⟨by decide, active_only_via_connection_callback exampleExchangeEvents (by decide)⟩

/-- C6: in the responder's awaited trace, wherever the answer write
starts, the application of the remote offer and the answer creation have
already completed — and wherever the answer creation starts, the offer
application has already completed. Each protocol step is awaited before
the next. -/
theorem responder_answer_after_offer_applied (offer answer : CallSignal) :
    (∀ j : Nat, (responderEvents offer answer).get? j
        = some (.start .createAnswerOp) →
      ∃ i, i < j ∧ (responderEvents offer answer).get? i
        = some (.complete (.setRemoteDesc offer))) ∧
    (∀ j : Nat, (responderEvents offer answer).get? j
        = some (.start (.writeAnswer answer)) →
      ∃ i₁ i₂, i₁ < j ∧ i₂ < j ∧
        (responderEvents offer answer).get? i₁
          = some (.complete (.setRemoteDesc offer)) ∧
        (responderEvents offer answer).get? i₂
          = some (.complete .createAnswerOp)) := by
  constructor
  · intro j hj
    have hlen : j < (responderEvents offer answer).length := by
      by_contra hge
      rw [List.get?_eq_none.mpr (by omega)] at hj
      exact Option.noConfusion hj
    have h12 : j < 12 := by
      simpa [responderEvents, responderActions, seqEvents] using hlen
    interval_cases j
    all_goals (first
      | (revert hj; simp [responderEvents, responderActions, seqEvents]; done)
      | exact ⟨5, by omega, rfl⟩)
  · intro j hj
    have hlen : j < (responderEvents offer answer).length := by
      by_contra hge
      rw [List.get?_eq_none.mpr (by omega)] at hj
      exact Option.noConfusion hj
    have h12 : j < 12 := by
      simpa [responderEvents, responderActions, seqEvents] using hlen
    interval_cases j
    all_goals (first
      | (revert hj; simp [responderEvents, responderActions, seqEvents]; done)
      | exact ⟨5, 7, by omega, by omega, rfl, rfl⟩)

/-- C6 witness: at the concrete offer/answer pair, the answer write
starts at position 10 of the trace, and the theorem places the offer
application's completion strictly before it. -/
theorem responder_answer_after_offer_applied_witness :
    (responderEvents exampleOffer exampleAnswer).get? 10
      = some (.start (.writeAnswer exampleAnswer)) ∧
    ∃ i₁ i₂, i₁ < 10 ∧ i₂ < 10 ∧
      (responderEvents exampleOffer exampleAnswer).get? i₁
        = some (.complete (.setRemoteDesc exampleOffer)) ∧
      (responderEvents exampleOffer exampleAnswer).get? i₂
        = some (.complete .createAnswerOp) :=
  ⟨by decide,
   (responder_answer_after_offer_applied exampleOffer exampleAnswer).2 10 (by decide)⟩

/-- C7: when media acquisition fails, the catch branch surfaces the
status `"Failed to access media devices"` — distinct from the statuses
of the ended/disconnected paths — releases nothing because nothing was
acquired, creates no peer session, and schedules `end` through
`setTimeout(onEndCall, 3000)`: a strictly positive, user-visible delay,
not an immediate teardown. Because no peer session exists, no
connection-state callback can ever fire, so (hypothesis) the delivered
events contain no `connected` callback and the call can never reach
`"Connected"`: it is never established. -/
theorem media_failure_terminal (events : List CallEvent)
    (hev : CallEvent.connectionStateChanged ConnState.connected ∉ events) :
    (startCallOutcome false).connectionStatus = "Failed to access media devices" ∧
    (startCallOutcome false).connectionStatus ≠ "Disconnected" ∧
    (startCallOutcome false).connectionStatus ≠ "Connected" ∧
    (startCallOutcome false).streamAcquired = false ∧
    (startCallOutcome false).pcCreated = false ∧
    (startCallOutcome false).endCallDelayMs = some 3000 ∧
    (∀ d, (startCallOutcome false).endCallDelayMs = some d → 0 < d) ∧
    (modalRun { connectionStatus := (startCallOutcome false).connectionStatus,
                pc := initialPeerConnection } events).connectionStatus
      ≠ "Connected" := by
  refine ⟨rfl, by decide, by decide, rfl, rfl, rfl, ?_, ?_⟩
  · intro d hd
    have : d = 3000 := by
      simpa [startCallOutcome] using hd.symm
    omega
  · exact modalRun_ne_connected events _ (by decide) hev

/-- C7 witness: with no events delivered after the failure, the status
stays at the failure message and never reaches `"Connected"`. -/
theorem media_failure_terminal_witness :
    CallEvent.connectionStateChanged ConnState.connected ∉ ([] : List CallEvent) ∧
    (startCallOutcome false).connectionStatus = "Failed to access media devices" ∧
    (startCallOutcome false).endCallDelayMs = some 3000 :=
  ⟨by decide,
   (media_failure_terminal [] (by decide)).1,
   (media_failure_terminal [] (by decide)).2.2.2.2.2.1⟩

/-- C8 counterexample: on a two-camera machine with a live call, the
switch succeeds — the sender now carries the fresh `cam1` track — yet no
`stop()` is ever issued for the old track (id 0): the claim's final step
«stop the old track» does not happen. The old track is only removed from
the local stream and left running. -/
theorem switchCamera_does_not_stop_old_track :
    (switchCamera exampleSwitchEnv exampleSwitchState).1.videoSenderTrack
      = some { trackId := 7, deviceId := "cam1", kind := "video" } ∧
    SwitchOp.stopTrack 0 ∉ (switchCamera exampleSwitchEnv exampleSwitchState).2 ∧
    (switchCamera exampleSwitchEnv exampleSwitchState).1.stoppedTracks = [] := by
  decide

/-- C8 (amended): on a successful switch, the algorithm enumerates the
video-capture devices, selects the device `nextVideoDevice` picks
(`(findIndex + 1) mod count`), acquires a stream from it, replaces the
outbound track on the video sender without any renegotiation, swaps the
old track out of the local stream for the new one, and points the
preview at that stream — but it never stops the old track. -/
theorem switchCamera_algorithm (env : SwitchEnv) (st : SwitchState)
    (tracks : List MediaTrack) (vt : MediaTrack) (nd : MediaDeviceInfo)
    (hs : st.localStream = some tracks)
    (hv : (tracks.filter (fun t => t.kind = "video")).head? = some vt)
    (hm : st.hasMultipleCameras = true)
    (hnd : nextVideoDevice (videoInputs env.devices) (some vt.deviceId) = some nd)
    (ha : env.acquireOk = true) :
    SwitchOp.enumerateDevices ∈ (switchCamera env st).2 ∧
    SwitchOp.acquire nd.deviceId ∈ (switchCamera env st).2 ∧
    (∀ old, st.videoSenderTrack = some old →
      (switchCamera env st).1.videoSenderTrack
        = some { trackId := env.freshTrackId, deviceId := nd.deviceId, kind := "video" } ∧
      SwitchOp.replaceTrack old.trackId env.freshTrackId ∈ (switchCamera env st).2) ∧
    SwitchOp.renegotiate ∉ (switchCamera env st).2 ∧
    (switchCamera env st).1.localStream
      = some (tracks.erase vt
          ++ [{ trackId := env.freshTrackId, deviceId := nd.deviceId, kind := "video" }]) ∧
    (switchCamera env st).1.previewTracks = (switchCamera env st).1.localStream ∧
    (switchCamera env st).1.stoppedTracks = st.stoppedTracks ∧
    SwitchOp.stopTrack vt.trackId ∉ (switchCamera env st).2 := by
  cases hsend : st.videoSenderTrack with
  | none =>
    simp [switchCamera, hs, hm, hv, hnd, ha, hsend]
  | some old =>
    simp [switchCamera, hs, hm, hv, hnd, ha, hsend]

/-- C8 witness: the concrete two-camera switch — no renegotiation, and
the stream now carries the fresh `cam1` track in place of the old one. -/
theorem switchCamera_algorithm_witness :
    SwitchOp.renegotiate ∉ (switchCamera exampleSwitchEnv exampleSwitchState).2 ∧
    (switchCamera exampleSwitchEnv exampleSwitchState).1.localStream
      = some (exampleTracks.erase exampleOldTrack
          ++ [{ trackId := 7, deviceId := "cam1", kind := "video" }]) := by
  have h := switchCamera_algorithm exampleSwitchEnv exampleSwitchState
    exampleTracks exampleOldTrack { deviceId := "cam1", kind := "videoinput" }
    rfl (by decide) rfl (by decide) rfl
  exact ⟨h.2.2.2.1, h.2.2.2.2.1⟩

/-- C9: with `hasMultipleCameras` as computed at mount from the same
device list (`videoInputs.length > 1`), a `switchCamera` on fewer than
two video-capture devices, or one whose acquisition fails (the exception
lands in the `catch`, which only logs), leaves the entire media state —
local stream, sender track, preview — exactly as it was: the call
continues on the prior track. -/
theorem switchCamera_silent_failure (env : SwitchEnv) (st : SwitchState)
    (hcams : st.hasMultipleCameras = decide (1 < (videoInputs env.devices).length))
    (h : (videoInputs env.devices).length < 2 ∨ env.acquireOk = false) :
    (switchCamera env st).1 = st := by
  cases hls : st.localStream with
  | none => simp [switchCamera, hls]
  | some tracks =>
    rcases h with hlen | hacq
    · have : st.hasMultipleCameras = false := by
        rw [hcams]
        simpa using Nat.not_lt.mpr (by omega)
      simp [switchCamera, hls, this]
    · cases hmc : st.hasMultipleCameras with
      | false => simp [switchCamera, hls, hmc]
      | true =>
        cases hnd : nextVideoDevice (videoInputs env.devices)
            ((tracks.find? (fun t => t.kind = "video")).map (·.deviceId)) with
        | none => simp [switchCamera, hls, hmc, hnd]
        | some nd => simp [switchCamera, hls, hmc, hnd, hacq]

/-- C9 witness: one camera only — `hasMultipleCameras` is `false` and
the switch changes nothing. -/
theorem switchCamera_silent_failure_witness :
    exampleOneCamState.hasMultipleCameras
      = decide (1 < (videoInputs exampleOneCamEnv.devices).length) ∧
    (videoInputs exampleOneCamEnv.devices).length < 2 ∧
    (switchCamera exampleOneCamEnv exampleOneCamState).1 = exampleOneCamState :=
  ⟨by decide, by decide,
   switchCamera_silent_failure exampleOneCamEnv exampleOneCamState (by decide)
     (Or.inl (by decide))⟩

/-- C10: when the current device id matches none of the enumerated
video inputs, `findIndex` yields −1, the selection index
`(−1 + 1) mod count` is 0, and the switch proceeds with the first
enumerated device rather than failing. -/
theorem nextVideoDevice_unknown_current (inputs : List MediaDeviceInfo)
    (cur : Option String) (hne : inputs ≠ [])
    (hmiss : ∀ d ∈ inputs, cur ≠ some d.deviceId) :
    nextVideoDevice inputs cur = inputs.head? ∧
    (nextVideoDevice inputs cur).isSome = true := by
  have hf : inputs.findIdx? (fun d => cur = some d.deviceId) = none := by
    rw [List.findIdx?_eq_none_iff]
    intro d hd
    simpa using hmiss d hd
  have hlen : 0 < inputs.length := List.length_pos.mpr hne
  have hsel : nextVideoDevice inputs cur = inputs.get? 0 := by
    rw [nextVideoDevice, hf]
    norm_num
  rw [hsel, List.get?_zero]
  exact ⟨rfl, by simpa [List.head?_isSome] using hne⟩

/-- C10 witness: a ghost device id among two cameras selects the first
camera. -/
theorem nextVideoDevice_unknown_current_witness :
    ((videoInputs exampleDevices) ≠ [] ∧
      ∀ d ∈ videoInputs exampleDevices, (some "ghost" : Option String) ≠ some d.deviceId) ∧
    nextVideoDevice (videoInputs exampleDevices) (some "ghost")
      = (videoInputs exampleDevices).head? ∧
    (nextVideoDevice (videoInputs exampleDevices) (some "ghost")).isSome = true :=
  ⟨⟨by decide, by decide⟩,
   nextVideoDevice_unknown_current (videoInputs exampleDevices) (some "ghost")
     (by decide) (by decide)⟩

end ChitchatCall
